import Mathlib

/-!
Shallow embedding of the NLI-transformer training code
(`src/model/nlitransformer.py`) and of the optimizer-string parser
(`src/infersent/src/InferSent/mutils.py`) of the `optml-proj` repository,
together with proofs settling the spec claims about label harmonization,
epoch-end aggregation, warmup configuration and optimizer-string parsing.

Machine floats are modelled as exact rationals; the external transformer
forward pass and its softmax are abstracted as per-example probability
inputs, and the focal-loss criterion (not part of the sources) is a
function parameter.
-/

deriving instance DecidableEq for Except

namespace NLI

/-- Modelled from the spec: the integer dataset identifiers from
`src/constants.py`, which is not among the sources.  Only the identity of
`hans_train` and `hans_validation` and membership of the HANS / MNLI / SNLI
identifier lists matter to the code under verification, so the datasets are
given arbitrary distinct codes. -/
def DATASET_TO_INTEGER : String → Int
  | "mnli_train" => 0
  | "mnli_validation" => 1
  | "snli_train" => 2
  | "snli_validation" => 3
  | "hans_train" => 4
  | "hans_validation" => 5
  | _ => -100

/-- Modelled from the spec: the HANS dataset identifier list from
`src/constants.py` (not among the sources). -/
def HANS_DATASET_INTEGER_IDENTIFIERS : List Int :=
  [DATASET_TO_INTEGER "hans_train", DATASET_TO_INTEGER "hans_validation"]

/-- Modelled from the spec: the MNLI dataset identifier list from
`src/constants.py` (not among the sources). -/
def MNLI_DATASET_INTEGER_IDENTIFIERS : List Int :=
  [DATASET_TO_INTEGER "mnli_train", DATASET_TO_INTEGER "mnli_validation"]

/-- Modelled from the spec: the SNLI dataset identifier list from
`src/constants.py` (not among the sources). -/
def SNLI_DATASET_INTEGER_IDENTIFIERS : List Int :=
  [DATASET_TO_INTEGER "snli_train", DATASET_TO_INTEGER "snli_validation"]

/-- Modelled from the spec: the HANS heuristic name-to-integer map from
`src/constants.py` (not among the sources); HANS has the three heuristics
named in the glossary literature. -/
def HEURISTIC_TO_INTEGER : List (String × Int) :=
  [("lexical_overlap", 0), ("subsequence", 1), ("constituent", 2)]

/-- Modelled from the spec: the value codes of the `HandcraftedType`
enumeration from `src/constants.py` (not among the sources); only the fact
that the epoch-end breakdown iterates over all enumeration members matters. -/
def HandcraftedTypeValues : List Int := [0, 1, 2, 3]

/-- Length of the padded T5 label sequences: the label tensors
`T5_ENTAILMENT_LABEL`, `T5_NEUTRAL_LABEL`, `T5_CONTRADICTION_LABEL` in
`nlitransformer.py` all have five components, and `T5_LABEL_PAD_LENGTH`
(from `src/constants.py`, not among the sources) matches them. -/
def T5_LABEL_PAD_LENGTH : Nat := 5

/-- The additive epsilon `1e-9` used by `BertForNLI._step` to keep the
synthetically zeroed contradiction slot away from `log(0)`. -/
def fixNanEps : ℚ := 1 / 1000000000

/-- Mean of a list of rationals, as `numpy.ndarray.mean` /
`torch.Tensor.mean` compute it on a non-empty array (sum divided by
length; the empty case, NaN in numpy, is mapped to `ℚ`'s `0/0 = 0`). -/
def npMean (l : List ℚ) : ℚ := l.sum / l.length

/-- Index of the first maximal element, as `torch.argmax` over the last
dimension returns it (auxiliary recursion: best value, best index,
current index). -/
def argmaxGo : List ℚ → ℚ → Nat → Nat → Nat
  | [], _, bi, _ => bi
  | x :: xs, bv, bi, i =>
      if bv < x then argmaxGo xs x i (i + 1) else argmaxGo xs bv bi (i + 1)

/-- Model of `torch.argmax` on a one-dimensional tensor: index of the first
maximal element (0 on the empty list, where torch would error). -/
def argmax : List ℚ → Nat
  | [] => 0
  | x :: xs => argmaxGo xs x 0 1

/-- Model of `F.one_hot(label, num_classes=3).float()` for a single label. -/
def oneHot3 (l : Nat) : List ℚ :=
  [if l = 0 then 1 else 0, if l = 1 then 1 else 0, if l = 2 then 1 else 0]

/-- A batch as consumed by `BertForNLI._step`.  The transformer forward
pass and the softmax over its logits are external library code, so the
per-example class-probability vectors `output.logits.softmax(-1)` enter
the embedding as the input field `prob_raw`. -/
structure BertBatch where
  idx : List Int
  dataset : List Int
  labels : List Nat
  handcrafted_type : List Int
  heuristic : Option (List Int)
  prob_raw : List (List ℚ)

/-- The results dictionary returned by `BertForNLI._step`. -/
structure BertResults where
  loss : ℚ
  acc : ℚ
  count : ℚ
  datapoint_idx : List Int
  datapoint_dataset : List Int
  datapoint_label : List Nat
  datapoint_handcrafted_type : List Int
  datapoint_heuristic : List Int
  datapoint_loss : List ℚ
  datapoint_pred : List Nat
  datapoint_true_pred : List ℚ
  datapoint_prob : List (List ℚ)
  datapoint_true_prob : List ℚ

/-- The per-example probability restacking of `BertForNLI._step`
(lines 433-441): with `p` the raw softmax vector of one example and `d`
its dataset identifier, the entailment slot is kept, the neutral slot
gains the contradiction mass exactly when `d` is the HANS training split,
and the contradiction slot is either the raw contradiction mass (other
datasets) or the additive epsilon `1e-9` (HANS training split).  The
boolean dataset masks of the source are the 0/1 factors. -/
def bertStackedProb (d : Int) (p : List ℚ) : List ℚ :=
  let prob_entailment := p.getD 0 0
  let prob_neutral := p.getD 1 0 +
    (if d = DATASET_TO_INTEGER "hans_train" then 1 else 0) * p.getD 2 0
  let prob_contradiction_raw :=
    (if d ≠ DATASET_TO_INTEGER "hans_train" then 1 else 0) * p.getD 2 0
  let prob_contradiction_fix_nan :=
    (if d = DATASET_TO_INTEGER "hans_train" then 1 else 0) * fixNanEps
  [prob_entailment, prob_neutral, prob_contradiction_raw + prob_contradiction_fix_nan]

/-- The HANS-validation remap of `BertForNLI._step` (lines 458-461):
`prob[:, 1] += prob[:, 2]` followed by `prob = prob[:, :2]`, applied to
every row of the probability matrix. -/
def hansValidationRemap (prob : List (List ℚ)) : List (List ℚ) :=
  prob.map (fun p => (p.set 1 (p.getD 1 0 + p.getD 2 0)).take 2)

/-- Embedding of `BertForNLI._step`.  `lossCriterion` stands for the external focal
loss applied to the elementwise logarithm of the stacked probabilities,
`self.loss_criterion(prob.log(), onehot_labels)`: `FocalLoss` lives in
`src/model/focalloss.py`, which is not among the sources, so the whole
map from (stacked probabilities, one-hot labels) to the per-example loss
vector is a function parameter. -/
def bertStep (lossCriterion : List (List ℚ) → List (List ℚ) → List ℚ)
    (batch : BertBatch) : BertResults :=
  let onehot_labels := batch.labels.map oneHot3
  let prob0 := (batch.dataset.zip batch.prob_raw).map
    (fun dp => bertStackedProb dp.1 dp.2)
  let loss := lossCriterion prob0 onehot_labels
  let dataset := batch.dataset.getD 0 0
  let prob := if dataset = DATASET_TO_INTEGER "hans_validation" then
      hansValidationRemap prob0
    else prob0
  let true_prob := (prob.zip batch.labels).map (fun pl => pl.1.getD pl.2 0)
  let pred := prob.map argmax
  let true_pred := (pred.zip batch.labels).map
    (fun pl => if pl.1 = pl.2 then (1 : ℚ) else 0)
  let heuristic := match batch.heuristic with
    | some h => h
    | none => batch.labels.map (fun _ => (-1 : Int))
  { loss := npMean loss
    acc := npMean true_pred
    count := (pred.length : ℚ)
    datapoint_idx := batch.idx
    datapoint_dataset := batch.dataset
    datapoint_label := batch.labels
    datapoint_handcrafted_type := batch.handcrafted_type
    datapoint_heuristic := heuristic
    datapoint_loss := loss
    datapoint_pred := pred
    datapoint_true_pred := true_pred
    datapoint_prob := prob
    datapoint_true_prob := true_prob }

/-- A batch as consumed by `T5ForNLI._step`.  The T5 forward pass is
external library code, so the per-example, per-position vocabulary logit
vectors `output.logits` enter the embedding as the input field `logits`. -/
structure T5Batch where
  idx : List Int
  dataset : List Int
  labels : List Int
  handcrafted_type : List Int
  heuristic : Option (List Int)
  target_input_ids : List (List Nat)
  logits : List (List (List ℚ))

/-- The results dictionary returned by `T5ForNLI._step`; `datapoint_prob`
is one-dimensional because the source reduces the probability matrix with
`prob.prod(-1)` before storing it. -/
structure T5Results where
  loss : ℚ
  acc : ℚ
  count : ℚ
  datapoint_idx : List Int
  datapoint_dataset : List Int
  datapoint_label : List Int
  datapoint_handcrafted_type : List Int
  datapoint_heuristic : List Int
  datapoint_loss : List ℚ
  datapoint_pred : List Int
  datapoint_true_pred : List ℚ
  datapoint_prob : List ℚ
  datapoint_true_prob : List ℚ

/-- Embedding of `T5ForNLI._step`.  `softmaxFn` stands for the external
`torch.softmax` over a vocabulary logit vector, and `lossCriterion` for
the external focal loss applied to the flattened logits and flattened
target token sequence.  The `loss.resize(batch_size, T5_LABEL_PAD_LENGTH)`
reshape is modelled by slicing the flat loss vector into rows.  The
unimplemented HANS branch raises `NotImplementedError` before the results
dictionary is built, modelled as `Except.error`. -/
def t5Step (softmaxFn : List ℚ → List ℚ)
    (lossCriterion : List (List ℚ) → List Nat → List ℚ)
    (batch : T5Batch) : Except String T5Results :=
  let batch_size := batch.target_input_ids.length
  let lossFlat := lossCriterion batch.logits.flatten batch.target_input_ids.flatten
  let loss := (List.range batch_size).map
    (fun i => npMean ((lossFlat.drop (i * T5_LABEL_PAD_LENGTH)).take T5_LABEL_PAD_LENGTH))
  let pred : List Int := List.replicate batch_size (-1)
  let prob0 : List (List ℚ) := List.replicate batch_size (List.replicate 3 (-1 : ℚ))
  let pred_tmp := batch.logits.map (fun ex => ex.map argmax)
  let true_pred := (pred_tmp.zip batch.target_input_ids).map
    (fun pt => if pt.1 = pt.2 then (1 : ℚ) else 0)
  let prob_tmp := batch.logits.map (fun ex => ex.map softmaxFn)
  let true_prob := (prob_tmp.zip batch.target_input_ids).map
    (fun pt => ((pt.1.zip pt.2).map (fun pv => pv.1.getD pv.2 0)).prod)
  let prob := prob0.map List.prod
  let dataset := batch.dataset.getD 0 0
  if dataset ∈ HANS_DATASET_INTEGER_IDENTIFIERS then
    Except.error "NotImplementedError"
  else
    let heuristic := match batch.heuristic with
      | some h => h
      | none => batch.labels.map (fun _ => (-1 : Int))
    Except.ok
      { loss := npMean loss
        acc := npMean true_pred
        count := (pred.length : ℚ)
        datapoint_idx := batch.idx
        datapoint_dataset := batch.dataset
        datapoint_label := batch.labels
        datapoint_handcrafted_type := batch.handcrafted_type
        datapoint_heuristic := heuristic
        datapoint_loss := loss
        datapoint_pred := pred
        datapoint_true_pred := true_pred
        datapoint_prob := prob
        datapoint_true_prob := true_prob }

/-- The runtime cross-check of `HuggingFaceTransformerForNLI._epoch_end`
(line 131): the mean of the concatenated correctness flags must equal the
mean of the indicator of `datapoint_pred == datapoint_label` on the
concatenated arrays. -/
def epochEndAccAssert {α : Type} [DecidableEq α]
    (true_preds : List ℚ) (preds labels : List α) : Prop :=
  npMean true_preds =
    npMean ((preds.zip labels).map (fun pl => if pl.1 = pl.2 then (1 : ℚ) else 0))

instance {α : Type} [DecidableEq α] (t : List ℚ) (p l : List α) :
    Decidable (epochEndAccAssert t p l) := by
  unfold epochEndAccAssert; infer_instance

/-- Python's `==` between a tuple and an integer: always `False`, since
neither operand implements the comparison and no array broadcasting takes
place (the left operand is a tuple, not an ndarray). -/
def pyTupleEqInt {α : Type} (_t : List α) (_v : Int) : Bool := false

/-- Python tuple indexing by a boolean: `bool` is an `int` subclass, so
`t[False]` is `t[0]` and `t[True]` is `t[1]`. -/
def pyTupleGetBool {α : Type} [Inhabited α] (t : List α) (b : Bool) : α :=
  t.getD (if b then 1 else 0) default

/-- The concatenated per-datapoint arrays of `_epoch_end` that the two
epoch-end breakdown loggers read. -/
structure EpochArrays where
  datapoint_handcrafted_type : List Int
  datapoint_heuristic : List Int
  datapoint_label : List Int
  datapoint_loss : List ℚ
  datapoint_pred : List Int
  datapoint_true_pred : List ℚ

/-- Boolean-mask selection `values[mask]` on arrays of equal length. -/
def boolMaskSelect {α : Type} (mask : List Bool) (values : List α) : List α :=
  ((mask.zip values).filter (fun mv => mv.1)).map (fun mv => mv.2)

/-- Mean of the entries of `values` selected by the boolean mask:
`values[mask].mean()`. -/
def maskedMean (mask : List Bool) (values : List ℚ) : ℚ :=
  npMean (boolMaskSelect mask values)

/-- Embedding of `HuggingFaceTransformerForNLI._log_mnli_epoch_end` (lines 178-197).
The three opening assignments in the source carry trailing commas, so
`handcrafted_types`, `losses` and `true_preds` are 1-tuples holding the
arrays; `mask` is then the Python boolean `False` (a tuple compared to an
integer), and `losses[mask]` indexes the 1-tuple at position 0, yielding
the whole array.  The function returns the logged scalars as
(type value, loss_per_type, acc_per_type) triples in iteration order. -/
def logMnliEpochEnd (results : EpochArrays) : List (Int × ℚ × ℚ) :=
  let handcrafted_types := [results.datapoint_handcrafted_type]
  let losses := [results.datapoint_loss]
  let true_preds := [results.datapoint_true_pred]
  HandcraftedTypeValues.map (fun handcrafted_type =>
    let mask := pyTupleEqInt handcrafted_types handcrafted_type
    let loss_per_type := npMean (pyTupleGetBool losses mask)
    let acc_per_type := npMean (pyTupleGetBool true_preds mask)
    (handcrafted_type, loss_per_type, acc_per_type))

/-- The boolean mask `(heuristics == heuristic_idx) & (labels ==
target_label)` of `_log_hans_epoch_end`, elementwise over the zipped
heuristic and label arrays. -/
def hansPairMask (results : EpochArrays) (heuristic_idx target_label : Int) : List Bool :=
  (results.datapoint_heuristic.zip results.datapoint_label).map
    (fun hl => decide (hl.1 = heuristic_idx) && decide (hl.2 = target_label))

/-- Embedding of `HuggingFaceTransformerForNLI._log_hans_epoch_end` (lines 199-221):
for each pair of a two-way target label and a heuristic, the boolean mask
selects the examples carrying that heuristic and label; a mask with sum
zero is skipped, and otherwise the masked mean loss and the masked mean
of `preds[mask] == labels[mask]` are logged.  Returned as
((target_label, heuristic index), loss, acc) entries in iteration order. -/
def logHansEpochEnd (results : EpochArrays) : List ((Int × Int) × ℚ × ℚ) :=
  let labels := results.datapoint_label
  let losses := results.datapoint_loss
  let preds := results.datapoint_pred
  (([0, 1] : List Int).map (fun target_label =>
    HEURISTIC_TO_INTEGER.filterMap (fun hi =>
      let heuristic_idx := hi.2
      let mask := hansPairMask results heuristic_idx target_label
      if mask.count true = 0 then
        none
      else
        let loss := maskedMean mask losses
        let acc := npMean ((boolMaskSelect mask (preds.zip labels)).map
          (fun pl => if pl.1 = pl.2 then (1 : ℚ) else 0))
        some ((target_label, heuristic_idx), loss, acc)))).flatten

/-- Python truthiness of an optional float hyperparameter: `None`, `0`
and `0.0` are falsy. -/
def pyTruthy (x : Option ℚ) : Bool :=
  match x with
  | none => false
  | some v => decide (v ≠ 0)

/-- The `ValueError` message raised when both warmup hyperparameters are
supplied. -/
def warmupBothErr : String :=
  "ValueError: Either warmup_steps or warmup_ratio should be given, but not both."

/-- The `ValueError` message raised when no warmup hyperparameter is
selected. -/
def warmupNoneErr : String :=
  "ValueError: Either warmup_steps or warmup_ratio should be given, but none were given."

/-- The `ValueError` message raised on an unknown optimizer name. -/
def invalidOptimizerErr : String := "ValueError: Invalid optimizer_name given"

/-- The `ValueError` message raised on an unknown scheduler name. -/
def invalidSchedulerErr : String := "ValueError: Invalid scheduler_name given"

/-- The optimizer / warmup / scheduler selection of
`BertForNLI.configure_optimizers` (lines 494-564).  Parameter grouping
and the optimizer and scheduler objects are external library code, so the
function returns the data selecting them: the optimizer name, the warmup
step count handed to the scheduler factory, and the scheduler name.  The
warmup branch tests `is not None` on both hyperparameters. -/
def bertConfigureOptimizers (optimizer_name scheduler_name : String)
    (warmup_steps warmup_ratio : Option ℚ) (train_steps : ℚ) :
    Except String (String × ℚ × String) :=
  if optimizer_name = "adamw" ∨ optimizer_name = "adam" then
    if warmup_ratio.isSome ∧ warmup_steps.isSome then
      Except.error warmupBothErr
    else
      match warmup_steps, warmup_ratio with
      | some w, _ =>
        if scheduler_name = "linear" ∨ scheduler_name = "polynomial" then
          Except.ok (optimizer_name, w, scheduler_name)
        else Except.error invalidSchedulerErr
      | none, some r =>
        if scheduler_name = "linear" ∨ scheduler_name = "polynomial" then
          Except.ok (optimizer_name, train_steps * r, scheduler_name)
        else Except.error invalidSchedulerErr
      | none, none =>
        Except.error warmupNoneErr
  else
    Except.error invalidOptimizerErr

/-- The optimizer / warmup / scheduler selection of
`T5ForNLI.configure_optimizers` (lines 312-382).  It differs from the
BERT variant in one point: the warmup branch tests plain truthiness
(`if self.hparams.warmup_steps:` / `elif self.hparams.warmup_ratio:`), so
a supplied value of zero falls through to the none-given error. -/
def t5ConfigureOptimizers (optimizer_name scheduler_name : String)
    (warmup_steps warmup_ratio : Option ℚ) (train_steps : ℚ) :
    Except String (String × ℚ × String) :=
  if optimizer_name = "adamw" ∨ optimizer_name = "adam" then
    if warmup_ratio.isSome ∧ warmup_steps.isSome then
      Except.error warmupBothErr
    else if pyTruthy warmup_steps then
      if scheduler_name = "linear" ∨ scheduler_name = "polynomial" then
        Except.ok (optimizer_name, warmup_steps.getD 0, scheduler_name)
      else Except.error invalidSchedulerErr
    else if pyTruthy warmup_ratio then
      if scheduler_name = "linear" ∨ scheduler_name = "polynomial" then
        Except.ok (optimizer_name, train_steps * warmup_ratio.getD 0, scheduler_name)
      else Except.error invalidSchedulerErr
    else
      Except.error warmupNoneErr
  else
    Except.error invalidOptimizerErr

/-- The torch optimizer classes selectable by `get_optimizer` in
`mutils.py`. -/
inductive OptimFn
  | adadelta
  | adagrad
  | adam
  | adamax
  | asgd
  | rmsprop
  | rprop
  | sgd
deriving DecidableEq

/-- Python errors raised by `get_optimizer`: a failed `assert` statement
raises `AssertionError`, an explicit `raise Exception(...)` carries a
message. -/
inductive PyErr
  | assertionError
  | exception (msg : String)
deriving DecidableEq

/-- Python `str.split(sep)` for a one-character separator, by structural
recursion over the character list; `acc` is the current piece reversed. -/
def pySplitAux (sep : Char) : List Char → List Char → List String
  | [], acc => [String.mk acc.reverse]
  | c :: cs, acc =>
      if c = sep then String.mk acc.reverse :: pySplitAux sep cs []
      else pySplitAux sep cs (c :: acc)

/-- Python `str.split(sep)` for a one-character separator. -/
def pySplit (s : String) (sep : Char) : List String :=
  pySplitAux sep s.data []

/-- Python `sep in s` for a one-character separator. -/
def pyContains (s : String) (c : Char) : Bool :=
  s.data.contains c

/-- Body of the numeric-literal regular expression of `get_optimizer`
after the optional sign: a run of digits optionally followed by a dot and
more digits, or a dot followed by at least one digit. -/
def numLitBody (cs : List Char) : Bool :=
  let intPart := cs.takeWhile Char.isDigit
  let rest := cs.dropWhile Char.isDigit
  if intPart.isEmpty then
    match rest with
    | '.' :: frac => !frac.isEmpty && frac.all Char.isDigit
    | _ => false
  else
    match rest with
    | [] => true
    | '.' :: frac => frac.all Char.isDigit
    | _ => false

/-- The anchored regular expression (optional sign, then digits with an
optional fractional part, or a leading dot with at least one digit) that
`get_optimizer` checks each parameter value against with `re.match`.
Python's final anchor matches at the end of the string or just before a
single trailing newline, so a value consisting of the numeral followed by
one newline is also accepted.  Digits are modelled as ASCII digits. -/
def matchesNumLit (s : String) : Bool :=
  let cs := match s.data with
    | [] => []
    | c :: rest => if c = '+' ∨ c = '-' then rest else c :: rest
  numLitBody cs ||
    (match cs.reverse with
     | '\n' :: rest => numLitBody rest.reverse
     | _ => false)

/-- Value of a digit list read as a decimal natural number. -/
def digitsVal (cs : List Char) : Nat :=
  cs.foldl (fun n c => 10 * n + (c.toNat - 48)) 0

/-- Python's `float` on a string accepted by the numeric-literal check,
as an exact rational: surrounding whitespace (here the single trailing
newline the anchor may admit) is stripped, then optional sign, integer
part, and optional fractional part scaled by a power of ten. -/
def floatOfNumLit (s : String) : ℚ :=
  let cs := match s.data.reverse with
    | '\n' :: rest => rest.reverse
    | _ => s.data
  let signNeg := cs.headD ' ' = '-'
  let body := match cs with
    | [] => []
    | c :: rest => if c = '+' ∨ c = '-' then rest else c :: rest
  let intPart := body.takeWhile Char.isDigit
  let rest := body.dropWhile Char.isDigit
  let frac := match rest with
    | '.' :: f => f
    | _ => []
  let mag : ℚ := (digitsVal intPart : ℚ) + (digitsVal frac : ℚ) / ((10 : ℚ) ^ frac.length)
  if signNeg then -mag else mag

/-- Python dict assignment `d[k] = v` on an association list: overwrite
an existing binding in place, otherwise append. -/
def dictInsert (d : List (String × ℚ)) (k : String) (v : ℚ) : List (String × ℚ) :=
  if d.any (fun p => p.1 = k) then
    d.map (fun p => if p.1 = k then (k, v) else p)
  else d ++ [(k, v)]

/-- The parameter-parsing loop of `get_optimizer`: each comma-separated
component must split at the equals sign into exactly two parts, the value
must match the numeric-literal pattern (both checked by `assert`), and
the binding is entered into the parameter dict converted to float. -/
def parseOptimParams : List String → List (String × ℚ) → Except PyErr (List (String × ℚ))
  | [], acc => Except.ok acc
  | x :: xs, acc =>
    match pySplit x '=' with
    | [k, v] =>
      if matchesNumLit v then parseOptimParams xs (dictInsert acc k (floatOfNumLit v))
      else Except.error PyErr.assertionError
    | _ => Except.error PyErr.assertionError

/-- The optimizer-method dispatch chain of `get_optimizer`. -/
def optimMethodOfString : String → Option OptimFn
  | "adadelta" => some OptimFn.adadelta
  | "adagrad" => some OptimFn.adagrad
  | "adam" => some OptimFn.adam
  | "adamax" => some OptimFn.adamax
  | "asgd" => some OptimFn.asgd
  | "rmsprop" => some OptimFn.rmsprop
  | "rprop" => some OptimFn.rprop
  | "sgd" => some OptimFn.sgd
  | _ => none

/-- The parameter-dict stage of `get_optimizer`: when the input contains
a comma, the comma-separated components after the method name are parsed
into the float parameter dict; otherwise the dict is empty. -/
def getOptimizerParams (s : String) : Except PyErr (List (String × ℚ)) :=
  if pyContains s ',' then parseOptimParams (pySplit s ',').tail [] else Except.ok []

/-- Embedding of `get_optimizer` from `mutils.py`.  `expectedArgsFull` stands for the
external introspection `inspect.signature(optim_fn.__init__).parameters`
on the selected torch optimizer class, so the constructor argument-name
lists enter the embedding as a function parameter.  The input is split at
commas into the method name and the parameter assignments; parameter
values must be numeric literals, the method must be one of the eight
known names (with `sgd` additionally asserting a learning rate), and all
parameter names must be accepted constructor arguments. -/
def get_optimizer (expectedArgsFull : OptimFn → List String) (s : String) :
    Except PyErr (OptimFn × List (String × ℚ)) := do
  let pieces := pySplit s ','
  let method := pieces.headD s
  let optim_params ← getOptimizerParams s
  let optim_fn ←
    match optimMethodOfString method with
    | some f => Except.ok f
    | none => Except.error (PyErr.exception ("Unknown optimization method: " ++ method))
  let _ ←
    if optim_fn = OptimFn.sgd ∧ ¬ optim_params.any (fun p => p.1 = "lr") then
      Except.error PyErr.assertionError
    else Except.ok ()
  let expected_args := expectedArgsFull optim_fn
  let _ ←
    if expected_args.take 2 = ["self", "params"] then Except.ok ()
    else Except.error PyErr.assertionError
  if optim_params.all (fun p => (expected_args.drop 2).contains p.1) then
    Except.ok (optim_fn, optim_params)
  else
    Except.error (PyErr.exception "Unexpected parameters")

/-! ## Helper lemmas -/

theorem bertStackedProb_eq_of_ne (d : Int) (a b c : ℚ)
    (hd : d ≠ DATASET_TO_INTEGER "hans_train") :
    bertStackedProb d [a, b, c] = [a, b, c] := by
  simp [bertStackedProb, hd]

theorem bertStackedProb_hans_train (a b c : ℚ) :
    bertStackedProb (DATASET_TO_INTEGER "hans_train") [a, b, c] = [a, b + c, fixNanEps] := by
  simp [bertStackedProb]

theorem stackRaw_of_all_ne (ds : List Int) (ps : List (List ℚ))
    (hlen : ds.length = ps.length)
    (hds : ∀ d ∈ ds, d ≠ DATASET_TO_INTEGER "hans_train")
    (hp : ∀ p ∈ ps, p.length = 3) :
    (ds.zip ps).map (fun dp => bertStackedProb dp.1 dp.2) = ps := by
  induction ds generalizing ps with
  | nil =>
    cases ps with
    | nil => simp
    | cons p ps => simp at hlen
  | cons d ds ih =>
    cases ps with
    | nil => simp at hlen
    | cons p ps =>
      obtain ⟨a, b, c, rfl⟩ := List.length_eq_three.mp (hp p (by simp))
      simp only [List.zip_cons_cons, List.map_cons]
      rw [bertStackedProb_eq_of_ne d a b c (hds d (by simp))]
      rw [ih ps (by simpa using hlen) (fun x hx => hds x (by simp [hx]))
        (fun x hx => hp x (by simp [hx]))]

theorem hansValidationRemap_of_len3 (ps : List (List ℚ)) (hp : ∀ p ∈ ps, p.length = 3) :
    hansValidationRemap ps = ps.map (fun p => [p.getD 0 0, p.getD 1 0 + p.getD 2 0]) := by
  unfold hansValidationRemap
  apply List.map_congr_left
  intro p hmem
  obtain ⟨a, b, c, rfl⟩ := List.length_eq_three.mp (hp p hmem)
  simp

theorem getD_head_of_all {l : List Int} {v : Int} (hne : l ≠ []) (h : ∀ d ∈ l, d = v) :
    l.getD 0 0 = v := by
  cases l with
  | nil => exact absurd rfl hne
  | cons d ds => exact h d (by simp)

theorem bertStep_hansval_prob (lossCriterion : List (List ℚ) → List (List ℚ) → List ℚ)
    (batch : BertBatch)
    (hne : batch.dataset ≠ [])
    (hall : ∀ d ∈ batch.dataset, d = DATASET_TO_INTEGER "hans_validation")
    (hlen : batch.dataset.length = batch.prob_raw.length)
    (hp : ∀ p ∈ batch.prob_raw, p.length = 3) :
    (bertStep lossCriterion batch).datapoint_prob =
      batch.prob_raw.map (fun p => [p.getD 0 0, p.getD 1 0 + p.getD 2 0]) := by
  have hd0 : batch.dataset.getD 0 0 = DATASET_TO_INTEGER "hans_validation" :=
    getD_head_of_all hne hall
  have hstack : (batch.dataset.zip batch.prob_raw).map
      (fun dp => bertStackedProb dp.1 dp.2) = batch.prob_raw :=
    stackRaw_of_all_ne _ _ hlen (fun d hd => by rw [hall d hd]; decide) hp
  simp only [bertStep, hd0, if_pos]
  rw [hstack, hansValidationRemap_of_len3 _ hp]

/-! ## Claims -/

/-- C3: in `BertForNLI._step`, for an example from the HANS training
split the stacked probability vector becomes
`[entailment, neutral + contradiction, 1e-9]` — the contradiction slot is
exactly the non-zero epsilon, so (with strictly positive softmax outputs)
every entry of the vector is strictly positive and the elementwise
logarithm taken for the focal loss never sees zero — while for an example
of any other dataset all three softmax probabilities are unchanged. -/
theorem C3_hans_train_prob_remap (d : Int) (a b c : ℚ) :
    (d = DATASET_TO_INTEGER "hans_train" →
      bertStackedProb d [a, b, c] = [a, b + c, fixNanEps] ∧
      fixNanEps ≠ 0 ∧
      (0 < a → 0 < b → 0 < c → ∀ x ∈ bertStackedProb d [a, b, c], 0 < x)) ∧
    (d ≠ DATASET_TO_INTEGER "hans_train" →
      bertStackedProb d [a, b, c] = [a, b, c]) := by
  constructor
  · intro hd
    subst hd
    refine ⟨bertStackedProb_hans_train a b c, by norm_num [fixNanEps], ?_⟩
    intro ha hb hc x hx
    rw [bertStackedProb_hans_train a b c] at hx
    simp only [List.mem_cons, List.not_mem_nil, or_false] at hx
    rcases hx with rfl | rfl | rfl
    · exact ha
    · positivity
    · norm_num [fixNanEps]
  · intro hd
    exact bertStackedProb_eq_of_ne d a b c hd

/-- Witness for C3 at the concrete softmax vector `[1/2, 1/4, 1/4]`, once
on the HANS training split and once on the MNLI training split. -/
theorem C3_hans_train_prob_remap_witness :
    bertStackedProb (DATASET_TO_INTEGER "hans_train")
      [1/2, 1/4, 1/4] = [1/2, 1/4 + 1/4, fixNanEps] ∧
    bertStackedProb (DATASET_TO_INTEGER "mnli_train") [1/2, 1/4, 1/4] = [1/2, 1/4, 1/4] :=
  ⟨((C3_hans_train_prob_remap (DATASET_TO_INTEGER "hans_train") (1/2) (1/4) (1/4)).1 rfl).1,
   (C3_hans_train_prob_remap (DATASET_TO_INTEGER "mnli_train") (1/2) (1/4) (1/4)).2 (by decide)⟩

/-- A two-example batch of the HANS validation split, used as concrete
input for the claims about `BertForNLI._step`. -/
def c2Batch : BertBatch :=
  { idx := [0, 1],
    dataset := [DATASET_TO_INTEGER "hans_validation", DATASET_TO_INTEGER "hans_validation"],
    labels := [0, 1], handcrafted_type := [0, 0], heuristic := some [0, 1],
    prob_raw := [[1/2, 1/4, 1/4], [1/10, 2/10, 7/10]] }

/-- C2: on a batch of the HANS validation split, `BertForNLI._step`
remaps each three-way probability vector by adding the contradiction mass
into the neutral slot and truncating to the first two components, and
only this remapped two-component vector feeds the gold-label probability
lookup and the argmax decoding of the prediction. -/
theorem C2_bert_hans_validation_decoding
    (lossCriterion : List (List ℚ) → List (List ℚ) → List ℚ) (batch : BertBatch)
    (hne : batch.dataset ≠ [])
    (hall : ∀ d ∈ batch.dataset, d = DATASET_TO_INTEGER "hans_validation")
    (hlen : batch.dataset.length = batch.prob_raw.length)
    (hp : ∀ p ∈ batch.prob_raw, p.length = 3) :
    (bertStep lossCriterion batch).datapoint_prob =
      batch.prob_raw.map (fun p => [p.getD 0 0, p.getD 1 0 + p.getD 2 0]) ∧
    (bertStep lossCriterion batch).datapoint_true_prob =
      ((batch.prob_raw.map (fun p => [p.getD 0 0, p.getD 1 0 + p.getD 2 0])).zip
        batch.labels).map (fun pl => pl.1.getD pl.2 0) ∧
    (bertStep lossCriterion batch).datapoint_pred =
      (batch.prob_raw.map (fun p => [p.getD 0 0, p.getD 1 0 + p.getD 2 0])).map argmax := by
  have hprob := bertStep_hansval_prob lossCriterion batch hne hall hlen hp
  refine ⟨hprob, ?_, ?_⟩
  · show (((bertStep lossCriterion batch).datapoint_prob).zip batch.labels).map
      (fun pl => pl.1.getD pl.2 0) = _
    rw [hprob]
  · show ((bertStep lossCriterion batch).datapoint_prob).map argmax = _
    rw [hprob]

/-- Witness for C2 on a concrete two-example HANS-validation batch. -/
theorem C2_bert_hans_validation_decoding_witness :
    (bertStep (fun _ _ => []) c2Batch).datapoint_prob =
      c2Batch.prob_raw.map (fun p => [p.getD 0 0, p.getD 1 0 + p.getD 2 0]) ∧
    (bertStep (fun _ _ => []) c2Batch).datapoint_true_prob =
      ((c2Batch.prob_raw.map (fun p => [p.getD 0 0, p.getD 1 0 + p.getD 2 0])).zip
        c2Batch.labels).map (fun pl => pl.1.getD pl.2 0) ∧
    (bertStep (fun _ _ => []) c2Batch).datapoint_pred =
      (c2Batch.prob_raw.map (fun p => [p.getD 0 0, p.getD 1 0 + p.getD 2 0])).map argmax :=
  C2_bert_hans_validation_decoding (fun _ _ => []) c2Batch
    (by decide) (by decide) (by decide) (by decide)

/-- C7: after the HANS remapping in `BertForNLI._step`, with the softmax
outputs taken as exact non-negative rationals summing to one, each
two-component vector of a HANS-validation batch sums to at most 1, and a
HANS-training stacked vector (entailment, neutral plus contradiction
mass, epsilon) sums to at most `1 + 1e-9`. -/
theorem C7_hans_prob_sum_bounds :
    (∀ (lossCriterion : List (List ℚ) → List (List ℚ) → List ℚ) (batch : BertBatch),
      batch.dataset ≠ [] →
      (∀ d ∈ batch.dataset, d = DATASET_TO_INTEGER "hans_validation") →
      batch.dataset.length = batch.prob_raw.length →
      (∀ p ∈ batch.prob_raw, p.length = 3 ∧ p.sum = 1) →
      ∀ v ∈ (bertStep lossCriterion batch).datapoint_prob, v.sum ≤ 1) ∧
    (∀ a b c : ℚ, a + b + c = 1 →
      (bertStackedProb (DATASET_TO_INTEGER "hans_train") [a, b, c]).sum ≤ 1 + fixNanEps) := by
  constructor
  · intro lc batch hne hall hlen hp v hv
    rw [bertStep_hansval_prob lc batch hne hall hlen (fun p hp2 => (hp p hp2).1)] at hv
    rcases List.mem_map.mp hv with ⟨p, hpm, rfl⟩
    obtain ⟨a, b, c, rfl⟩ := List.length_eq_three.mp (hp _ hpm).1
    have hsum := (hp _ hpm).2
    simp only [List.sum_cons, List.sum_nil] at hsum ⊢
    simp only [List.getD_cons_zero, List.getD_cons_succ]
    linarith
  · intro a b c hsum
    rw [bertStackedProb_hans_train]
    simp only [List.sum_cons, List.sum_nil]
    norm_num [fixNanEps]
    linarith

/-- Witness for C7 on a concrete HANS-validation batch and a concrete
HANS-training softmax vector. -/
theorem C7_hans_prob_sum_bounds_witness :
    (∀ v ∈ (bertStep (fun _ _ => []) c2Batch).datapoint_prob, v.sum ≤ 1) ∧
    (bertStackedProb (DATASET_TO_INTEGER "hans_train") [1/2, 1/4, 1/4]).sum ≤ 1 + fixNanEps :=
  ⟨C7_hans_prob_sum_bounds.1 (fun _ _ => []) c2Batch (by decide) (by decide) (by decide)
      (by
        intro p hp
        have hcase : p = [1/2, 1/4, 1/4] ∨ p = [1/10, 2/10, 7/10] := by
          simpa [c2Batch] using hp
        rcases hcase with rfl | rfl <;> exact ⟨by decide, by norm_num⟩),
   C7_hans_prob_sum_bounds.2 (1/2) (1/4) (1/4) (by norm_num)⟩

/-- C9: `T5ForNLI._step` on a batch whose dataset identifier is a HANS
dataset raises `NotImplementedError` and returns no results dictionary,
partial or otherwise. -/
theorem C9_t5_hans_raises (softmaxFn : List ℚ → List ℚ)
    (lossCriterion : List (List ℚ) → List Nat → List ℚ) (batch : T5Batch)
    (h : batch.dataset.getD 0 0 ∈ HANS_DATASET_INTEGER_IDENTIFIERS) :
    t5Step softmaxFn lossCriterion batch = Except.error "NotImplementedError" := by
  simp only [t5Step]
  rw [if_pos h]

/-- Witness for C9 on a concrete one-example HANS-validation batch. -/
theorem C9_t5_hans_raises_witness :
    t5Step (fun v => v) (fun _ _ => [])
      { idx := [0], dataset := [DATASET_TO_INTEGER "hans_validation"], labels := [0],
        handcrafted_type := [0], heuristic := some [0],
        target_input_ids := [[0, 0, 0, 0, 0]],
        logits := [[[1], [1], [1], [1], [1]]] } = Except.error "NotImplementedError" :=
  C9_t5_hans_raises _ _ _ (by decide)

/-- C10: `T5ForNLI._step` on a non-HANS batch returns a results
dictionary whose `datapoint_pred` is the sentinel `-1` for every example
and whose `datapoint_prob` is `-1` for every example (the sentinel fill
matrix reduced by `prod` over its last dimension), while
`datapoint_true_pred` and `datapoint_true_prob` are computed from the
actual model logits. -/
theorem C10_t5_sentinel_outputs (softmaxFn : List ℚ → List ℚ)
    (lossCriterion : List (List ℚ) → List Nat → List ℚ) (batch : T5Batch)
    (h : batch.dataset.getD 0 0 ∉ HANS_DATASET_INTEGER_IDENTIFIERS) :
    ∃ r : T5Results, t5Step softmaxFn lossCriterion batch = Except.ok r ∧
      r.datapoint_pred = List.replicate batch.target_input_ids.length (-1) ∧
      r.datapoint_prob = List.replicate batch.target_input_ids.length (-1) ∧
      r.datapoint_true_pred =
        ((batch.logits.map (fun ex => ex.map argmax)).zip batch.target_input_ids).map
          (fun pt => if pt.1 = pt.2 then (1 : ℚ) else 0) ∧
      r.datapoint_true_prob =
        ((batch.logits.map (fun ex => ex.map softmaxFn)).zip batch.target_input_ids).map
          (fun pt => ((pt.1.zip pt.2).map (fun pv => pv.1.getD pv.2 0)).prod) := by
  simp only [t5Step]
  rw [if_neg h]
  refine ⟨_, rfl, rfl, ?_, rfl, rfl⟩
  show (List.replicate batch.target_input_ids.length
      (List.replicate 3 (-1 : ℚ))).map List.prod = _
  rw [List.map_replicate]
  norm_num

/-- A one-example MNLI batch on which the T5 model decodes the target
sequence exactly: the correctness flag is 1 while the stored prediction
stays at the sentinel `-1`. -/
def c1Batch : T5Batch :=
  { idx := [0], dataset := [DATASET_TO_INTEGER "mnli_train"], labels := [0],
    handcrafted_type := [0], heuristic := none,
    target_input_ids := [[0, 0, 0, 0, 0]],
    logits := [[[1, 0], [1, 0], [1, 0], [1, 0], [1, 0]]] }

/-- C1: the epoch-end cross-check
`assert acc == (datapoint_pred == datapoint_label).mean()` fails on
results produced by `T5ForNLI._step`: on a batch where the model decodes
the target exactly, `datapoint_true_pred` is `[1]` but `datapoint_pred`
is the sentinel `[-1]`, so the indicator mean against the gold label `0`
is `0`, not `1`.  The claim (and the spec invariant) demands the
assertion pass for every `_step` results list; `T5ForNLI._step`'s
sentinel predictions break it. -/
theorem C1_epoch_end_assert_fails_for_t5 :
    (t5Step (fun v => v) (fun _ _ => List.replicate 5 0) c1Batch).map
      (fun r => (r.datapoint_true_pred, r.datapoint_pred, r.datapoint_label)) =
      Except.ok ([1], [-1], [0]) ∧
    ¬ epochEndAccAssert [(1 : ℚ)] [(-1 : Int)] [0] := by
  constructor
  · rfl
  · simp only [epochEndAccAssert, npMean]
    norm_num

/-- The mean of the concatenated per-batch correctness flags of
`BertForNLI._step` always equals the mean of the indicator of
`datapoint_pred == datapoint_label` on the concatenated arrays: the
epoch-end assertion holds on every results list the BERT step produces
(stated here as a standalone fact supporting the analysis of the
epoch-end cross-check). -/
theorem bertStep_epoch_end_assert_holds
    (lossCriterion : List (List ℚ) → List (List ℚ) → List ℚ) (batches : List BertBatch)
    (hlen : ∀ b ∈ batches, (bertStep lossCriterion b).datapoint_pred.length =
      (bertStep lossCriterion b).datapoint_label.length) :
    epochEndAccAssert
      ((batches.map (fun b => (bertStep lossCriterion b).datapoint_true_pred)).flatten)
      ((batches.map (fun b => (bertStep lossCriterion b).datapoint_pred)).flatten)
      ((batches.map (fun b => (bertStep lossCriterion b).datapoint_label)).flatten) := by
  unfold epochEndAccAssert
  congr 1
  induction batches with
  | nil => simp
  | cons b bs ih =>
    simp only [List.map_cons, List.flatten_cons]
    rw [List.zip_append (hlen b (by simp)), List.map_append]
    rw [ih (fun x hx => hlen x (by simp [hx]))]
    rfl

/-- The boolean mask `handcrafted_types == value` that the spec intends
for the MNLI epoch-end breakdown: elementwise equality with the category
value. -/
def eqMask (xs : List Int) (v : Int) : List Bool :=
  xs.map (fun x => decide (x = v))

/-- Concatenated epoch arrays with two examples of different handcrafted
types and different losses, exposing the tuple slip in
`_log_mnli_epoch_end`. -/
def c5Arrays : EpochArrays :=
  { datapoint_handcrafted_type := [0, 1], datapoint_heuristic := [-1, -1],
    datapoint_label := [0, 1], datapoint_loss := [0, 2],
    datapoint_pred := [0, 1], datapoint_true_pred := [1, 0] }

/-- C5: on concrete epoch arrays holding one example of handcrafted type
0 (loss 0, correct) and one of type 1 (loss 2, incorrect),
`_log_mnli_epoch_end` logs the overall mean loss 1 and overall accuracy
1/2 for every category — the trailing commas in the source turn the
arrays into 1-tuples, the mask into plain `False`, and `losses[mask]`
into the whole array — whereas the mask-restricted means for type 0 that
the claim demands are loss 0 and accuracy 1. -/
theorem C5_mnli_breakdown_ignores_mask :
    logMnliEpochEnd c5Arrays = [(0, 1, 1/2), (1, 1, 1/2), (2, 1, 1/2), (3, 1, 1/2)] ∧
    maskedMean (eqMask c5Arrays.datapoint_handcrafted_type 0) c5Arrays.datapoint_loss = 0 ∧
    maskedMean (eqMask c5Arrays.datapoint_handcrafted_type 0) c5Arrays.datapoint_true_pred
      = 1 := by
  refine ⟨?_, ?_, ?_⟩ <;>
    norm_num [logMnliEpochEnd, c5Arrays, HandcraftedTypeValues, pyTupleEqInt,
      pyTupleGetBool, npMean, maskedMean, eqMask, boolMaskSelect]

/-- C4 counterexample: `T5ForNLI.configure_optimizers` called with
`warmup_steps = 0` supplied and `warmup_ratio` unset raises the
none-given `ValueError` instead of passing the supplied warmup step count
`0` to the scheduler as the claim states. -/
theorem C4_counterexample_t5_zero_steps :
    t5ConfigureOptimizers "adamw" "linear" (some 0) none 100 = Except.error warmupNoneErr ∧
    t5ConfigureOptimizers "adamw" "linear" (some 0) none 100 ≠
      Except.ok ("adamw", 0, "linear") := by
  have h1 : t5ConfigureOptimizers "adamw" "linear" (some 0) none 100 =
      Except.error warmupNoneErr := by
    simp [t5ConfigureOptimizers, pyTruthy]
  exact ⟨h1, by rw [h1]; simp⟩

/-- C4 amended: for `BertForNLI.configure_optimizers` the claim holds as
stated (both supplied: `ValueError`; neither: `ValueError`; otherwise the
supplied `warmup_steps`, or `train_steps * warmup_ratio`).  For
`T5ForNLI.configure_optimizers` the same holds except that the supplied-
value tests use Python truthiness, so a supplied value of zero is treated
as unsupplied and raises the none-given `ValueError`. -/
theorem C4_amended_warmup_selection (opt sched : String) (ws wr : Option ℚ) (ts : ℚ)
    (hopt : opt = "adamw" ∨ opt = "adam")
    (hsched : sched = "linear" ∨ sched = "polynomial") :
    (ws.isSome → wr.isSome →
      bertConfigureOptimizers opt sched ws wr ts = Except.error warmupBothErr ∧
      t5ConfigureOptimizers opt sched ws wr ts = Except.error warmupBothErr) ∧
    (ws = none → wr = none →
      bertConfigureOptimizers opt sched ws wr ts = Except.error warmupNoneErr ∧
      t5ConfigureOptimizers opt sched ws wr ts = Except.error warmupNoneErr) ∧
    (∀ w, ws = some w → wr = none →
      bertConfigureOptimizers opt sched ws wr ts = Except.ok (opt, w, sched) ∧
      (w ≠ 0 → t5ConfigureOptimizers opt sched ws wr ts = Except.ok (opt, w, sched)) ∧
      (w = 0 → t5ConfigureOptimizers opt sched ws wr ts = Except.error warmupNoneErr)) ∧
    (∀ r, ws = none → wr = some r →
      bertConfigureOptimizers opt sched ws wr ts = Except.ok (opt, ts * r, sched) ∧
      (r ≠ 0 → t5ConfigureOptimizers opt sched ws wr ts = Except.ok (opt, ts * r, sched)) ∧
      (r = 0 → t5ConfigureOptimizers opt sched ws wr ts = Except.error warmupNoneErr)) := by
  refine ⟨?_, ?_, ?_, ?_⟩
  · intro hws hwr
    rcases Option.isSome_iff_exists.mp hws with ⟨w, rfl⟩
    rcases Option.isSome_iff_exists.mp hwr with ⟨r, rfl⟩
    constructor <;> simp [bertConfigureOptimizers, t5ConfigureOptimizers, hopt]
  · rintro rfl rfl
    constructor <;>
      simp [bertConfigureOptimizers, t5ConfigureOptimizers, hopt, pyTruthy]
  · rintro w rfl rfl
    refine ⟨?_, ?_, ?_⟩
    · simp [bertConfigureOptimizers, hopt, hsched]
    · intro hw
      simp [t5ConfigureOptimizers, hopt, hsched, pyTruthy, hw]
    · rintro rfl
      simp [t5ConfigureOptimizers, hopt, pyTruthy]
  · rintro r rfl rfl
    refine ⟨?_, ?_, ?_⟩
    · simp [bertConfigureOptimizers, hopt, hsched]
    · intro hr
      simp [t5ConfigureOptimizers, hopt, hsched, pyTruthy, hr]
    · rintro rfl
      simp [t5ConfigureOptimizers, hopt, pyTruthy]

/-- Witness for the amended C4 at concrete hyperparameters: supplied
non-zero warmup steps are used by both models. -/
theorem C4_amended_warmup_selection_witness :
    bertConfigureOptimizers "adamw" "linear" (some 3) none 100 =
      Except.ok ("adamw", 3, "linear") ∧
    t5ConfigureOptimizers "adamw" "linear" (some 3) none 100 =
      Except.ok ("adamw", 3, "linear") := by
  have h := (C4_amended_warmup_selection "adamw" "linear" (some 3) none 100
    (Or.inl rfl) (Or.inl rfl)).2.2.1 3 rfl rfl
  exact ⟨h.1, h.2.1 (by norm_num)⟩

/-- Witness for C10 on a concrete one-example MNLI batch. -/
theorem C10_t5_sentinel_outputs_witness :
    ∃ r : T5Results, t5Step (fun v => v) (fun _ _ => List.replicate 5 0)
      { idx := [0], dataset := [DATASET_TO_INTEGER "mnli_train"], labels := [0],
        handcrafted_type := [0], heuristic := none,
        target_input_ids := [[0, 0, 0, 0, 0]],
        logits := [[[1, 0], [1, 0], [1, 0], [1, 0], [1, 0]]] } = Except.ok r ∧
      r.datapoint_pred = List.replicate 1 (-1) ∧
      r.datapoint_prob = List.replicate 1 (-1) ∧
      r.datapoint_true_pred = [if [0, 0, 0, 0, 0] = [0, 0, 0, 0, 0] then (1 : ℚ) else 0] ∧
      r.datapoint_true_prob =
        [(([(([1, 0] : List ℚ), 0), ([1, 0], 0), ([1, 0], 0), ([1, 0], 0), ([1, 0], 0)] :
            List (List ℚ × Nat)).map (fun pv => pv.1.getD pv.2 0)).prod] := by
  have h := C10_t5_sentinel_outputs (fun v => v) (fun _ _ => List.replicate 5 0)
    { idx := [0], dataset := [DATASET_TO_INTEGER "mnli_train"], labels := [0],
      handcrafted_type := [0], heuristic := none,
      target_input_ids := [[0, 0, 0, 0, 0]],
      logits := [[[1, 0], [1, 0], [1, 0], [1, 0], [1, 0]]] } (by decide)
  obtain ⟨r, h1, h2, h3, h4, h5⟩ := h
  exact ⟨r, h1, h2, h3, by rw [h4]; rfl, by rw [h5]; rfl⟩

/-- C8: in the HANS epoch-end breakdown, a (two-way label, heuristic)
pair whose selection mask is empty is skipped entirely — no metric entry
is produced for it — and a pair with a non-empty mask is logged with the
masked mean loss and the masked mean of the indicator of
`datapoint_pred == datapoint_label`. -/
theorem C8_hans_breakdown_mask_or_skip (results : EpochArrays)
    (target_label heuristic_idx : Int)
    (hl : target_label = 0 ∨ target_label = 1)
    (hh : heuristic_idx ∈ HEURISTIC_TO_INTEGER.map (fun p => p.2)) :
    ((hansPairMask results heuristic_idx target_label).count true = 0 →
      ∀ lv av, ((target_label, heuristic_idx), lv, av) ∉ logHansEpochEnd results) ∧
    ((hansPairMask results heuristic_idx target_label).count true ≠ 0 →
      ((target_label, heuristic_idx),
        maskedMean (hansPairMask results heuristic_idx target_label)
          results.datapoint_loss,
        npMean ((boolMaskSelect (hansPairMask results heuristic_idx target_label)
            (results.datapoint_pred.zip results.datapoint_label)).map
          (fun pl => if pl.1 = pl.2 then (1 : ℚ) else 0))) ∈
        logHansEpochEnd results) := by
  constructor
  · intro h0 lv av hmem
    simp only [logHansEpochEnd, List.mem_flatten, List.mem_map] at hmem
    obtain ⟨l, ⟨t, ht, rfl⟩, hmem2⟩ := hmem
    rcases List.mem_filterMap.mp hmem2 with ⟨hi, hhi, hsome⟩
    split at hsome
    · exact absurd hsome (by simp)
    · rename_i hcount
      have hkey := Option.some.inj hsome
      have h1 : t = target_label := congrArg (fun z => z.1.1) hkey
      have h2 : hi.2 = heuristic_idx := congrArg (fun z => z.1.2) hkey
      rw [h1, h2] at hcount
      exact hcount h0
  · intro hcount
    rcases List.mem_map.mp hh with ⟨p, hp, hpe⟩
    simp only [logHansEpochEnd, List.mem_flatten, List.mem_map]
    refine ⟨_, ⟨target_label, ?_, rfl⟩, ?_⟩
    · rcases hl with rfl | rfl <;> simp
    · refine List.mem_filterMap.mpr ⟨p, hp, ?_⟩
      rw [hpe, if_neg hcount]

/-- Concatenated HANS epoch arrays with two examples of heuristic 0 and
label 0 (one predicted correctly) and one example of heuristic 1 and
label 1, leaving the (label 0, heuristic 2) cell empty. -/
def c8Arrays : EpochArrays :=
  { datapoint_handcrafted_type := [0, 0, 0], datapoint_heuristic := [0, 0, 1],
    datapoint_label := [0, 0, 1], datapoint_loss := [1, 3, 5],
    datapoint_pred := [0, 1, 1], datapoint_true_pred := [1, 0, 1] }

/-- Witness for C8: on the concrete arrays, the empty (label 0,
heuristic 2) cell produces no log entry while the populated (label 0,
heuristic 0) cell is logged with the masked means. -/
theorem C8_hans_breakdown_mask_or_skip_witness :
    (∀ lv av, (((0 : Int), (2 : Int)), lv, av) ∉ logHansEpochEnd c8Arrays) ∧
    (((0 : Int), (0 : Int)),
      maskedMean (hansPairMask c8Arrays 0 0) c8Arrays.datapoint_loss,
      npMean ((boolMaskSelect (hansPairMask c8Arrays 0 0)
          (c8Arrays.datapoint_pred.zip c8Arrays.datapoint_label)).map
        (fun pl => if pl.1 = pl.2 then (1 : ℚ) else 0))) ∈ logHansEpochEnd c8Arrays :=
  ⟨fun lv av => (C8_hans_breakdown_mask_or_skip c8Arrays 0 2 (Or.inl rfl)
      (by decide)).1 (by decide) lv av,
   (C8_hans_breakdown_mask_or_skip c8Arrays 0 0 (Or.inl rfl)
      (by decide)).2 (by decide)⟩

theorem mem_dictInsert {d : List (String × ℚ)} {k : String} {v : ℚ} {kv : String × ℚ}
    (h : kv ∈ dictInsert d k v) : kv = (k, v) ∨ kv ∈ d := by
  unfold dictInsert at h
  split at h
  · rcases List.mem_map.mp h with ⟨p, hp, hpe⟩
    by_cases hk : p.1 = k
    · left
      rw [← hpe, if_pos hk]
    · right
      rw [← hpe, if_neg hk]
      exact hp
  · rcases List.mem_append.mp h with h1 | h2
    · right
      exact h1
    · left
      simpa using h2

theorem parseOptimParams_ok_mem (xs : List String) (acc d : List (String × ℚ))
    (h : parseOptimParams xs acc = Except.ok d) :
    ∀ kv ∈ d, kv ∈ acc ∨ ∃ x ∈ xs, ∃ vs, pySplit x '=' = [kv.1, vs] ∧
      matchesNumLit vs = true ∧ kv.2 = floatOfNumLit vs := by
  induction xs generalizing acc with
  | nil =>
    intro kv hkv
    simp only [parseOptimParams, Except.ok.injEq] at h
    subst h
    exact Or.inl hkv
  | cons x xs ih =>
    intro kv hkv
    simp only [parseOptimParams] at h
    split at h
    · rename_i k v hsplit
      split at h
      · rename_i hm
        rcases ih _ h kv hkv with hin | ⟨y, hy, vs, h1, h2, h3⟩
        · rcases mem_dictInsert hin with heq | hmem
          · subst heq
            exact Or.inr ⟨x, by simp, v, hsplit, hm, rfl⟩
          · exact Or.inl hmem
        · exact Or.inr ⟨y, by simp [hy], vs, h1, h2, h3⟩
      · exact absurd h (by simp)
    · exact absurd h (by simp)

theorem parseOptimParams_err_of_bad (xs : List String) (x : String)
    (acc : List (String × ℚ)) (hx : x ∈ xs)
    (h2 : (pySplit x '=').length = 2)
    (hbad : matchesNumLit ((pySplit x '=').getD 1 "") = false) :
    ∃ e, parseOptimParams xs acc = Except.error e := by
  revert hx
  induction xs generalizing acc with
  | nil =>
    intro hx
    simp at hx
  | cons y ys ih =>
    intro hx
    rcases List.mem_cons.mp hx with rfl | hmem
    · obtain ⟨k, v, hkv⟩ := List.length_eq_two.mp h2
      rw [hkv] at hbad
      simp at hbad
      refine ⟨PyErr.assertionError, ?_⟩
      simp only [parseOptimParams, hkv]
      simp [hbad]
    · simp only [parseOptimParams]
      split
      · split
        · exact ih _ hmem
        · exact ⟨_, rfl⟩
      · exact ⟨_, rfl⟩

theorem exceptBind_ok {ε α β : Type} (a : α) (f : α → Except ε β) :
    (Except.ok a >>= f) = f a := rfl

theorem exceptBind_err {ε α β : Type} (e : ε) (f : α → Except ε β) :
    ((Except.error e : Except ε α) >>= f) = Except.error e := rfl

theorem dictInsert_mem_self (d : List (String × ℚ)) (k : String) (v : ℚ) :
    ∃ w, (k, w) ∈ dictInsert d k v := by
  unfold dictInsert
  split
  · rename_i hany
    rcases List.any_eq_true.mp hany with ⟨p, hp, hpk⟩
    simp only [decide_eq_true_eq] at hpk
    exact ⟨v, List.mem_map.mpr ⟨p, hp, by rw [if_pos hpk]⟩⟩
  · exact ⟨v, by simp⟩

theorem dictInsert_key_mono {d : List (String × ℚ)} {k0 : String} {v : ℚ}
    {k : String} {w : ℚ} (h : (k, w) ∈ d) :
    ∃ w', (k, w') ∈ dictInsert d k0 v := by
  unfold dictInsert
  split
  · by_cases hk : k = k0
    · subst hk
      exact ⟨v, List.mem_map.mpr ⟨(k, w), h, by simp⟩⟩
    · exact ⟨w, List.mem_map.mpr ⟨(k, w), h, by simp [hk]⟩⟩
  · exact ⟨w, by simp [h]⟩

theorem parseOptimParams_keys_mono (xs : List String) (acc d : List (String × ℚ))
    (h : parseOptimParams xs acc = Except.ok d) (k : String) (w : ℚ)
    (hk : (k, w) ∈ acc) : ∃ w', (k, w') ∈ d := by
  induction xs generalizing acc w with
  | nil =>
    simp only [parseOptimParams, Except.ok.injEq] at h
    subst h
    exact ⟨w, hk⟩
  | cons x xs ih =>
    simp only [parseOptimParams] at h
    split at h
    · rename_i k0 v hsplit
      split at h
      · obtain ⟨w1, hw1⟩ := @dictInsert_key_mono acc k0 (floatOfNumLit v) k w hk
        exact ih _ h w1 hw1
      · exact absurd h (by simp)
    · exact absurd h (by simp)

theorem parseOptimParams_ok_complete (xs : List String) (acc d : List (String × ℚ))
    (h : parseOptimParams xs acc = Except.ok d) :
    ∀ x ∈ xs, ∃ k vs, pySplit x '=' = [k, vs] ∧ matchesNumLit vs = true ∧
      ∃ w, (k, w) ∈ d := by
  induction xs generalizing acc with
  | nil =>
    intro x hx
    simp at hx
  | cons y ys ih =>
    intro x hx
    simp only [parseOptimParams] at h
    split at h
    · rename_i k v hsplit
      split at h
      · rename_i hm
        rcases List.mem_cons.mp hx with rfl | hmem
        · refine ⟨k, v, hsplit, hm, ?_⟩
          obtain ⟨w, hw⟩ := dictInsert_mem_self acc k (floatOfNumLit v)
          exact parseOptimParams_keys_mono ys _ d h k w hw
        · exact ih _ h x hmem
      · exact absurd h (by simp)
    · exact absurd h (by simp)

theorem get_optimizer_ok_inversion (ex : OptimFn → List String) (s : String)
    (fn : OptimFn) (d : List (String × ℚ))
    (h : get_optimizer ex s = Except.ok (fn, d)) :
    getOptimizerParams s = Except.ok d ∧
    optimMethodOfString ((pySplit s ',').headD s) = some fn ∧
    d.all (fun p => ((ex fn).drop 2).contains p.1) = true := by
  simp only [get_optimizer] at h
  cases hgp : getOptimizerParams s with
  | error e =>
    rw [hgp] at h
    exact absurd h (by simp [exceptBind_err])
  | ok ps =>
    rw [hgp, exceptBind_ok] at h
    cases hm : optimMethodOfString ((pySplit s ',').headD s) with
    | none =>
      rw [hm] at h
      simp [exceptBind_err] at h
    | some f0 =>
      rw [hm] at h
      simp only [exceptBind_err, exceptBind_ok] at h
      split at h
      · simp at h
      · split at h
        · split at h
          · rename_i hall
            obtain ⟨h1, h2⟩ := Prod.mk.injEq _ _ _ _ ▸ Except.ok.inj h
            subst h1
            subst h2
            exact ⟨rfl, rfl, hall⟩
          · simp at h
        · simp at h

/-- C6: `get_optimizer` raises whenever a parameter value after the
equals sign does not match the anchored signed decimal numeric-literal
pattern, whenever the method name is not one of the eight known
optimizers, and whenever a parsed parameter name is not among the
accepted constructor arguments of the selected optimizer class; and when
it returns, the method name resolved to the returned optimizer class,
the returned dict is exactly the parsed parameter dict — every binding
has an accepted name and comes from a parsed `name=value` component with
`value` matching the numeric pattern and converted to its float value,
and conversely every parsed component is a valid `name=value` pair whose
name is bound in the dict (the dict is empty when the input has no
comma). -/
theorem C6_get_optimizer_validation :
    (∀ (ex : OptimFn → List String) (s x : String),
      pyContains s ',' = true → x ∈ (pySplit s ',').tail →
      (pySplit x '=').length = 2 →
      matchesNumLit ((pySplit x '=').getD 1 "") = false →
      ∃ e, get_optimizer ex s = Except.error e) ∧
    (∀ (ex : OptimFn → List String) (s : String),
      optimMethodOfString ((pySplit s ',').headD s) = none →
      ∃ e, get_optimizer ex s = Except.error e) ∧
    (∀ (ex : OptimFn → List String) (s : String) (fn : OptimFn)
        (ps : List (String × ℚ)) (kv : String × ℚ),
      getOptimizerParams s = Except.ok ps →
      optimMethodOfString ((pySplit s ',').headD s) = some fn →
      kv ∈ ps → kv.1 ∉ (ex fn).drop 2 →
      ∃ e, get_optimizer ex s = Except.error e) ∧
    (∀ (ex : OptimFn → List String) (s : String) (fn : OptimFn)
        (d : List (String × ℚ)),
      get_optimizer ex s = Except.ok (fn, d) →
      optimMethodOfString ((pySplit s ',').headD s) = some fn ∧
      (∀ kv ∈ d, kv.1 ∈ (ex fn).drop 2) ∧
      (∀ kv ∈ d, ∃ x ∈ (pySplit s ',').tail, ∃ vs,
        pySplit x '=' = [kv.1, vs] ∧ matchesNumLit vs = true ∧
        kv.2 = floatOfNumLit vs) ∧
      (pyContains s ',' = true →
        ∀ x ∈ (pySplit s ',').tail, ∃ k vs, pySplit x '=' = [k, vs] ∧
          matchesNumLit vs = true ∧ ∃ w, (k, w) ∈ d) ∧
      (pyContains s ',' = false → d = [])) := by
  refine ⟨?_, ?_, ?_, ?_⟩
  · intro ex s x hc hx h2 hbad
    obtain ⟨e, he⟩ := parseOptimParams_err_of_bad (pySplit s ',').tail x [] hx h2 hbad
    refine ⟨e, ?_⟩
    simp only [get_optimizer, getOptimizerParams, hc, if_true, he, exceptBind_err]
  · intro ex s hm
    by_cases hc : pyContains s ',' = true
    · cases hpp : parseOptimParams (pySplit s ',').tail [] with
      | error e =>
        refine ⟨e, ?_⟩
        simp only [get_optimizer, getOptimizerParams, hc, if_true, hpp, exceptBind_err]
      | ok ps =>
        refine ⟨PyErr.exception ("Unknown optimization method: " ++
          (pySplit s ',').headD s), ?_⟩
        simp only [get_optimizer, getOptimizerParams, hc, if_true, hpp, exceptBind_ok]
        rw [hm]
        rfl
    · refine ⟨PyErr.exception ("Unknown optimization method: " ++
        (pySplit s ',').headD s), ?_⟩
      simp only [get_optimizer, getOptimizerParams, hc, if_false, Bool.false_eq_true,
        exceptBind_ok]
      rw [hm]
      rfl
  · intro ex s fn ps kv hgp hm hkv hnot
    cases hres : get_optimizer ex s with
    | error e => exact ⟨e, rfl⟩
    | ok r =>
      obtain ⟨fn1, d⟩ := r
      obtain ⟨hgp1, hm1, hall⟩ := get_optimizer_ok_inversion ex s fn1 d hres
      rw [hgp] at hgp1
      obtain rfl := Except.ok.inj hgp1
      rw [hm] at hm1
      obtain rfl := Option.some.inj hm1
      have hc2 := List.all_eq_true.mp hall kv hkv
      have hc3 : kv.1 ∈ (ex fn).drop 2 := by simpa using hc2
      exact absurd hc3 hnot
  · intro ex s fn d h
    obtain ⟨hgp, hm, hall⟩ := get_optimizer_ok_inversion ex s fn d h
    refine ⟨hm, ?_, ?_, ?_, ?_⟩
    · intro kv hkv
      have hc2 := List.all_eq_true.mp hall kv hkv
      simpa using hc2
    · intro kv hkv
      by_cases hc : pyContains s ',' = true
      · simp only [getOptimizerParams, hc, if_true] at hgp
        rcases parseOptimParams_ok_mem _ _ _ hgp kv hkv with h0 | hex
        · simp at h0
        · exact hex
      · simp only [getOptimizerParams, hc, Bool.false_eq_true, if_false,
          Except.ok.injEq] at hgp
        subst hgp
        simp at hkv
    · intro hc x hx
      simp only [getOptimizerParams, hc, if_true] at hgp
      exact parseOptimParams_ok_complete _ _ _ hgp x hx
    · intro hc
      simp only [getOptimizerParams, hc, Bool.false_eq_true, if_false,
        Except.ok.injEq] at hgp
      exact hgp.symm

/-- A concrete accepted-argument map standing in for the torch optimizer
constructor signatures introspected by `get_optimizer`. -/
def exArgsW : OptimFn → List String := fun f =>
  match f with
  | OptimFn.sgd =>
      ["self", "params", "lr", "momentum", "dampening", "weight_decay", "nesterov"]
  | _ => ["self", "params", "lr", "weight_decay"]

/-- Witness for C6 at concrete inputs: a malformed numeric value, an
unknown method name and an unaccepted parameter name are each rejected,
and a successful parse returns accepted float bindings covering every
parsed component. -/
theorem C6_get_optimizer_validation_witness :
    (∃ e, get_optimizer exArgsW "sgd,lr=abc" = Except.error e) ∧
    (∃ e, get_optimizer exArgsW "foo,lr=0.1" = Except.error e) ∧
    (∃ e, get_optimizer exArgsW "adam,beta=0.9" = Except.error e) ∧
    (∀ kv ∈ [("lr", floatOfNumLit "0.01")],
      (kv.1 : String) ∈ (exArgsW OptimFn.sgd).drop 2) ∧
    (∀ x ∈ (pySplit "sgd,lr=0.01" ',').tail, ∃ k vs, pySplit x '=' = [k, vs] ∧
      matchesNumLit vs = true ∧ ∃ w, (k, w) ∈ [("lr", floatOfNumLit "0.01")]) :=
  ⟨C6_get_optimizer_validation.1 exArgsW "sgd,lr=abc" "lr=abc"
      (by decide) (by decide) (by decide) (by decide),
   C6_get_optimizer_validation.2.1 exArgsW "foo,lr=0.1" (by decide),
   C6_get_optimizer_validation.2.2.1 exArgsW "adam,beta=0.9" OptimFn.adam
      [("beta", floatOfNumLit "0.9")] ("beta", floatOfNumLit "0.9")
      rfl (by decide) (by simp) (by decide),
   (C6_get_optimizer_validation.2.2.2 exArgsW "sgd,lr=0.01" OptimFn.sgd
      [("lr", floatOfNumLit "0.01")] rfl).2.1,
   (C6_get_optimizer_validation.2.2.2 exArgsW "sgd,lr=0.01" OptimFn.sgd
      [("lr", floatOfNumLit "0.01")] rfl).2.2.2.1 (by decide)⟩

end NLI
